import Mathlib

/-!
Shallow embedding of the tourist-safety backend (alert, geofence and
location logic) and proofs of the specification claims about it.

The source is a JavaScript/Express service.  Pure record-manipulation
logic is translated into Lean functions; every interaction with the
Supabase store (fetch, upsert, update, insert) is an explicit parameter
of the embedded operation, so a single call of an embedded handler
corresponds to one HTTP request with the store answers fixed.  Machine
numbers are modelled as Rat / Int / Nat.  The floating-point Haversine
computation of calculateDistance is abstracted as a distance-function
parameter; every claim proved here is about the surrounding logic and
holds for an arbitrary distance function.
-/

/-- A latitude/longitude pair, as stored in geofence coordinates. -/
structure Coordinate where
  latitude : ℚ
  longitude : ℚ
deriving Repr, DecidableEq

/-- One geofence record, as built by createGeofence:
id, name, coordinates, radius (parseInt of the request value), type,
is_active (always true at creation), created_at. -/
structure Geofence where
  id : String
  name : String
  coordinates : Coordinate
  radius : Int
  type : String
  is_active : Bool
  created_at : Nat
deriving Repr, DecidableEq

/-- One location-history entry as built by updateLocation. -/
structure LocationEntry where
  latitude : ℚ
  longitude : ℚ
  accuracy : Option ℚ
  address : Option String
  timestamp : Nat
  source : String
deriving Repr, DecidableEq

/-- A tourist_profiles row, restricted to the columns the embedded
operations read: geofences and location_history, both nullable. -/
structure TouristProfile where
  geofences : Option (List Geofence)
  location_history : Option (List LocationEntry)
deriving Repr, DecidableEq

/-- The location field of an auto-generated geofence-violation alert:
the triggering coordinate plus the address string built from the
geofence name. -/
structure AlertLocation where
  latitude : ℚ
  longitude : ℚ
  address : String
deriving Repr, DecidableEq

/-- The row inserted into the alerts table by checkGeofenceViolations. -/
structure GeofenceAlertInsert where
  tourist_id : String
  type : String
  severity : String
  location : AlertLocation
  message : String
  auto_generated : Bool
deriving Repr, DecidableEq

/-- The alert row built for one violating geofence (the insert at the
heart of checkGeofenceViolations). -/
def violationAlert (userId : String) (lat lon : ℚ) (g : Geofence) :
    GeofenceAlertInsert :=
  { tourist_id := userId
    type := "geofence_violation"
    severity := "high"
    location := { latitude := lat, longitude := lon, address := "Near " ++ g.name }
    message := "Tourist entered danger zone: " ++ g.name
    auto_generated := true }

/-- The for-loop of checkGeofenceViolations: skip inactive geofences;
compute the distance; if distance is at most the radius and the type is
danger, insert one alert.  The distance function is a parameter
abstracting calculateDistance (floating-point Haversine in the source);
it receives the sample latitude, sample longitude and the geofence
center, in the argument order of the source call. -/
def checkGeofenceLoop (dist : ℚ → ℚ → ℚ → ℚ → ℚ) (userId : String)
    (lat lon : ℚ) : List Geofence → List GeofenceAlertInsert
  | [] => []
  | g :: rest =>
    if g.is_active = false then
      checkGeofenceLoop dist userId lat lon rest
    else if dist lat lon g.coordinates.latitude g.coordinates.longitude ≤ (g.radius : ℚ)
        ∧ g.type = "danger" then
      violationAlert userId lat lon g :: checkGeofenceLoop dist userId lat lon rest
    else
      checkGeofenceLoop dist userId lat lon rest

/-- checkGeofenceViolations: fetch the profile; when the profile or its
geofences column is null, return without doing anything; otherwise run
the loop.  The returned list is the sequence of alert rows inserted. -/
def checkGeofenceViolations (dist : ℚ → ℚ → ℚ → ℚ → ℚ) (userId : String)
    (lat lon : ℚ) (profile : Option TouristProfile) : List GeofenceAlertInsert :=
  match profile with
  | none => []
  | some p =>
    match p.geofences with
    | none => []
    | some gfs => checkGeofenceLoop dist userId lat lon gfs

/-- The qualifying test of the claim: active, danger-typed, and the
sample within the radius. -/
def triggersViolation (dist : ℚ → ℚ → ℚ → ℚ → ℚ) (lat lon : ℚ) (g : Geofence) : Bool :=
  g.is_active
    && decide (dist lat lon g.coordinates.latitude g.coordinates.longitude ≤ (g.radius : ℚ))
    && (g.type == "danger")

theorem checkGeofenceLoop_eq_filter (dist : ℚ → ℚ → ℚ → ℚ → ℚ) (userId : String)
    (lat lon : ℚ) (gfs : List Geofence) :
    checkGeofenceLoop dist userId lat lon gfs =
      (gfs.filter (triggersViolation dist lat lon)).map (violationAlert userId lat lon) := by
  induction gfs with
  | nil => rfl
  | cons g rest ih =>
    by_cases hact : g.is_active = false
    · simp [checkGeofenceLoop, hact, List.filter, triggersViolation, ih]
    · have hact' : g.is_active = true := by
        cases h : g.is_active
        · exact absurd h hact
        · rfl
      by_cases hcond : dist lat lon g.coordinates.latitude g.coordinates.longitude ≤ (g.radius : ℚ)
          ∧ g.type = "danger"
      · simp [checkGeofenceLoop, hact', List.filter, triggersViolation, hcond.1, hcond.2, ih]
      · rcases not_and_or.mp hcond with h1 | h2
        · simp [checkGeofenceLoop, hact', hcond, List.filter, triggersViolation, h1, ih]
        · have hb : (g.type == "danger") = false := beq_eq_false_iff_ne.mpr h2
          simp [checkGeofenceLoop, hact', hcond, List.filter, triggersViolation, hb, ih]

/-- Claim C1: for a recorded location sample, each geofence in the user
geofence set that is active, of type danger, and whose center lies
within the radius of the sample produces exactly one alert row with
type geofence_violation, severity high, auto_generated true, a message
referencing the geofence name and the triggering coordinate as
location; non-qualifying geofences (safe, warning, inactive) produce
none, and a missing profile or missing geofence set is a no-op. -/
theorem checkGeofenceViolations_spec (dist : ℚ → ℚ → ℚ → ℚ → ℚ)
    (userId : String) (lat lon : ℚ) :
    checkGeofenceViolations dist userId lat lon none = []
    ∧ (∀ lh, checkGeofenceViolations dist userId lat lon
        (some { geofences := none, location_history := lh }) = [])
    ∧ (∀ gfs lh, checkGeofenceViolations dist userId lat lon
        (some { geofences := some gfs, location_history := lh }) =
        (gfs.filter (triggersViolation dist lat lon)).map (violationAlert userId lat lon))
    ∧ (∀ g : Geofence,
        (violationAlert userId lat lon g).type = "geofence_violation"
        ∧ (violationAlert userId lat lon g).severity = "high"
        ∧ (violationAlert userId lat lon g).auto_generated = true
        ∧ (violationAlert userId lat lon g).message = "Tourist entered danger zone: " ++ g.name
        ∧ (violationAlert userId lat lon g).location.latitude = lat
        ∧ (violationAlert userId lat lon g).location.longitude = lon
        ∧ (violationAlert userId lat lon g).tourist_id = userId) := by
  refine ⟨rfl, fun lh => rfl, fun gfs lh => ?_, fun g => ⟨rfl, rfl, rfl, rfl, rfl, rfl, rfl⟩⟩
  exact checkGeofenceLoop_eq_filter dist userId lat lon gfs

/-- The history update of updateLocation: JavaScript
currentHistory.slice(-49) concatenated with the new entry, keeping at
most the 49 most recent old entries plus the new one. -/
def nextHistory (cur : List LocationEntry) (e : LocationEntry) : List LocationEntry :=
  cur.drop (cur.length - 49) ++ [e]

/-- The suffix of the n most recent entries of a history. -/
def takeLast (n : Nat) (l : List LocationEntry) : List LocationEntry :=
  l.drop (l.length - n)

/-- The history obtained by recording a sequence of samples one by one,
starting from an empty history, each call applying the nextHistory
update of updateLocation. -/
def histAfter (samples : List LocationEntry) : List LocationEntry :=
  samples.foldl nextHistory []

theorem nextHistory_snoc (xs : List LocationEntry) (x : LocationEntry) :
    nextHistory (takeLast 50 xs) x = takeLast 50 (xs ++ [x]) := by
  unfold nextHistory takeLast
  rw [List.length_drop, List.drop_drop, List.length_append]
  rcases le_or_lt xs.length 49 with h | h
  · have h2 : xs.length - 50 + (xs.length - (xs.length - 50) - 49) = 0 := by omega
    have h3 : xs.length + [x].length - 50 = 0 := by
      show xs.length + 1 - 50 = 0
      omega
    rw [h2, h3, List.drop_zero, List.drop_zero]
  · have h2 : xs.length - 50 + (xs.length - (xs.length - 50) - 49) = xs.length - 49 := by
      omega
    have h3 : xs.length + [x].length - 50 = xs.length - 49 := by
      show xs.length + 1 - 50 = xs.length - 49
      omega
    rw [h2, h3, List.drop_append_of_le_length (by omega)]

theorem histAfter_eq_takeLast (samples : List LocationEntry) :
    histAfter samples = takeLast 50 samples := by
  induction samples using List.reverseRecOn with
  | nil => rfl
  | append_singleton xs x ih =>
    unfold histAfter at ih ⊢
    rw [List.foldl_append, List.foldl_cons, List.foldl_nil, ih, nextHistory_snoc]

/-- A request body for updateLocation, after JSON parsing: the four
fields the Joi schema reads. -/
structure LocationReq where
  latitude : Option ℚ
  longitude : Option ℚ
  accuracy : Option ℚ
  address : Option String
deriving Repr, DecidableEq

/-- The Joi validation of updateLocation: latitude and longitude are
required numbers within range; accuracy and address are optional.
Returns the validated pair or none on a validation error. -/
def validateLocation (req : LocationReq) : Option (ℚ × ℚ) :=
  match req.latitude, req.longitude with
  | some lat, some lon =>
    if -90 ≤ lat ∧ lat ≤ 90 ∧ -180 ≤ lon ∧ lon ≤ 180 then some (lat, lon) else none
  | _, _ => none

/-- The location entry built by updateLocation for the validated
coordinate, with the capture timestamp and the fixed source tag. -/
def mkLocationEntry (lat lon : ℚ) (accuracy : Option ℚ) (address : Option String)
    (now : Nat) : LocationEntry :=
  { latitude := lat, longitude := lon, accuracy := accuracy, address := address
    timestamp := now, source := "mobile_app" }

/-- The answer of the profile fetch at the start of updateLocation and
createGeofence: a row, the PGRST116 no-row answer, or a hard store
error. -/
inductive FetchResult where
  | ok (p : TouristProfile)
  | notFound
  | err (m : String)
deriving Repr, DecidableEq

/-- The HTTP outcome of updateLocation: 400 on validation failure, 500
on a store failure of the primary write path, success otherwise
(carrying the persisted history). -/
inductive LocationUpdateResp where
  | badRequest (m : String)
  | storeError (m : String)
  | success (history : List LocationEntry)
deriving Repr, DecidableEq

/-- The outcome of one updateLocation call: the HTTP response plus the
alert rows inserted by the geofence check side effect. -/
structure LocationUpdateOut where
  resp : LocationUpdateResp
  inserted : List GeofenceAlertInsert
deriving Repr, DecidableEq

/-- The try/catch around the body of checkGeofenceViolations: the raw
run either completes with a list of inserted alerts or raises a
storage/logic failure; the catch logs the failure and returns
normally, so the caller always gets a plain list. -/
def checkGeofenceViolationsCaught
    (raw : Except String (List GeofenceAlertInsert)) : List GeofenceAlertInsert :=
  match raw with
  | .ok alerts => alerts
  | .error _ => []

/-- The tail of updateLocation after a successful fetch: build the
entry, truncate the history, upsert, then run the caught geofence
check and answer 200. -/
def updateLocationCore (currentHistory : List LocationEntry) (lat lon : ℚ)
    (req : LocationReq) (upsertErr : Option String)
    (geoRaw : Except String (List GeofenceAlertInsert)) (now : Nat) : LocationUpdateOut :=
  let entry := mkLocationEntry lat lon req.accuracy req.address now
  let updatedHistory := nextHistory currentHistory entry
  match upsertErr with
  | some m => ⟨.storeError m, []⟩
  | none => ⟨.success updatedHistory, checkGeofenceViolationsCaught geoRaw⟩

/-- updateLocation: validate the body, fetch the profile (a PGRST116
no-row answer is not an error and yields an empty history), append and
truncate, upsert, then run the geofence check whose outcome is the
geoRaw parameter. -/
def updateLocation (req : LocationReq) (fetchRes : FetchResult)
    (upsertErr : Option String) (geoRaw : Except String (List GeofenceAlertInsert))
    (now : Nat) : LocationUpdateOut :=
  match validateLocation req with
  | none => ⟨.badRequest "invalid latitude or longitude", []⟩
  | some (lat, lon) =>
    match fetchRes with
    | .err m => ⟨.storeError m, []⟩
    | .ok p => updateLocationCore (p.location_history.getD []) lat lon req upsertErr geoRaw now
    | .notFound => updateLocationCore [] lat lon req upsertErr geoRaw now

/-- Claim C3: the per-user location history never exceeds 50 entries;
recording appends the new sample and keeps the 50 most recent entries;
after 51 sequential appends the first sample is absent and the 51st is
present; an absent history is treated as empty rather than an error. -/
theorem locationHistory_cap_spec :
    (∀ cur e, (nextHistory cur e).length ≤ 50)
    ∧ (∀ samples : List LocationEntry, samples.length = 51 →
        histAfter samples = samples.drop 1)
    ∧ (∀ (samples : List LocationEntry) (s0 : LocationEntry), samples.length = 51 →
        samples.head? = some s0 → s0 ∉ samples.drop 1 → s0 ∉ histAfter samples)
    ∧ (∀ (samples : List LocationEntry) (sl : LocationEntry), samples.length = 51 →
        samples.getLast? = some sl → sl ∈ histAfter samples)
    ∧ (∀ req lat lon geoRaw now, validateLocation req = some (lat, lon) →
        (updateLocation req .notFound none geoRaw now).resp =
          .success [mkLocationEntry lat lon req.accuracy req.address now]) := by
  have hdrop : ∀ samples : List LocationEntry, samples.length = 51 →
      histAfter samples = samples.drop 1 := by
    intro samples h
    rw [histAfter_eq_takeLast]
    unfold takeLast
    rw [h]
  refine ⟨?_, hdrop, ?_, ?_, ?_⟩
  · intro cur e
    simp [nextHistory]
    omega
  · intro samples s0 h hh hnot
    rw [hdrop samples h]
    exact hnot
  · intro samples sl h hl
    rw [hdrop samples h]
    rw [List.getLast?_eq_getElem?, h] at hl
    have h50 : samples[(50 : Nat)]? = some sl := by simpa using hl
    have hd : (samples.drop 1)[(49 : Nat)]? = some sl := by
      rw [List.getElem?_drop]
      simpa using h50
    exact List.getElem?_mem hd
  · intro req lat lon geoRaw now hv
    simp [updateLocation, hv, updateLocationCore, nextHistory]

/-- Concrete entries used to exercise the 51-append scenario. -/
def sampleEntry (n : Nat) : LocationEntry :=
  { latitude := 0, longitude := 0, accuracy := none, address := none
    timestamp := n, source := "mobile_app" }

/-- The 51 distinct samples appended in order. -/
def samples51 : List LocationEntry := (List.range 51).map sampleEntry

/-- A concrete valid location request. -/
def locReqSample : LocationReq :=
  { latitude := some 1, longitude := some 2, accuracy := none, address := none }

/-- Witness for claim C3: on 51 concrete sequential appends the
resulting history is the last 50 samples, the first sample is gone, the
51st is present, and a first-time user with no stored history gets a
one-entry history rather than an error. -/
theorem locationHistory_cap_witness :
    samples51.length = 51
    ∧ histAfter samples51 = samples51.drop 1
    ∧ sampleEntry 0 ∉ histAfter samples51
    ∧ sampleEntry 50 ∈ histAfter samples51
    ∧ (updateLocation locReqSample .notFound none (Except.ok []) 9).resp =
        .success [mkLocationEntry 1 2 none none 9] :=
  ⟨by decide,
   locationHistory_cap_spec.2.1 samples51 (by decide),
   locationHistory_cap_spec.2.2.1 samples51 (sampleEntry 0) (by decide) (by decide) (by decide),
   locationHistory_cap_spec.2.2.2.1 samples51 (sampleEntry 50) (by decide) (by decide),
   locationHistory_cap_spec.2.2.2.2 locReqSample 1 2 (Except.ok []) 9 (by decide)⟩

/-- Claim C7: the HTTP outcome of updateLocation does not depend on the
outcome of the geofence-violation side effect — a storage or logic
failure inside the check is caught (the caught check returns an empty
insertion list on failure instead of propagating) and the location
write succeeds or fails solely on its own validation, fetch and upsert
results. -/
theorem updateLocation_geofence_isolated :
    (∀ req fetchRes upsertErr g1 g2 now,
      (updateLocation req fetchRes upsertErr g1 now).resp =
      (updateLocation req fetchRes upsertErr g2 now).resp)
    ∧ (∀ e : String, checkGeofenceViolationsCaught (.error e) = []) := by
  constructor
  · intro req fetchRes upsertErr g1 g2 now
    unfold updateLocation updateLocationCore
    cases validateLocation req with
    | none => rfl
    | some p =>
      cases fetchRes <;> cases upsertErr <;> rfl
  · intro e
    rfl

/-- One row of the alerts table, restricted to the columns the listing
handler filters, orders and returns. -/
structure AlertRow where
  id : String
  tourist_id : String
  status : String
  type : String
  severity : String
  created_at : Nat
deriving Repr, DecidableEq

/-- JavaScript truthiness of an optional string: absent and empty
strings are falsy. -/
def truthyS (v : Option String) : Bool :=
  match v with
  | none => false
  | some s => s ≠ ""

/-- One conditional equality filter of the listing handler: applied
only when the query value is truthy. -/
def applyEqFilter (f : AlertRow → String) (v : Option String)
    (l : List AlertRow) : List AlertRow :=
  if truthyS v then l.filter (fun r => f r == v.getD "") else l

/-- Insertion into a list sorted by created_at descending. -/
def insertDesc (a : AlertRow) : List AlertRow → List AlertRow
  | [] => [a]
  | b :: rest =>
    if a.created_at ≤ b.created_at then b :: insertDesc a rest else a :: b :: rest

/-- Sorting by created_at descending, the order requested from the
store by the listing handler. -/
def sortDesc (l : List AlertRow) : List AlertRow :=
  l.foldr insertDesc []

/-- The query parameters of the listing handler, with the source
defaults page = 1 and limit = 20 supplied by the caller. -/
structure ListQuery where
  status : Option String
  type : Option String
  severity : Option String
  page : Int
  limit : Int
deriving Repr, DecidableEq

/-- The filter pipeline of the listing handler: the hard tourist
scoping first, then the three optional equality filters. -/
def filteredAlerts (db : List AlertRow) (role actorId : String)
    (q : ListQuery) : List AlertRow :=
  applyEqFilter AlertRow.severity q.severity
    (applyEqFilter AlertRow.type q.type
      (applyEqFilter AlertRow.status q.status
        (if role = "tourist" then db.filter (fun r => r.tourist_id == actorId) else db)))

/-- Math.ceil of a quotient of a nonnegative numerator and positive
denominator, the only values this program reaches. -/
def jsCeilDiv (a b : Int) : Int := (a + b - 1) / b

/-- The pagination block of the listing response. -/
structure PageInfo where
  page : Int
  limit : Int
  total : Int
  pages : Int
deriving Repr, DecidableEq

/-- The listing response body: rows plus pagination. -/
structure AlertsPage where
  alerts : List AlertRow
  pageInfo : PageInfo
deriving Repr, DecidableEq

/-- The listing handler: scope by role, apply the optional filters,
order by created_at descending, slice the offset window
from = (page-1)*limit to to = from+limit-1, and report pagination.
The select call passes no count option, so the store client answers
with a null count (countFromStore below is none at this call site);
the handler then reports total = count or zero. -/
def runAlertSelect (db : List AlertRow) (role actorId : String) (q : ListQuery)
    (countOpt : Bool) : List AlertRow × Option Int :=
  let filtered := filteredAlerts db role actorId q
  let sorted := sortDesc filtered
  let fromIdx : Int := (q.page - 1) * q.limit
  let toIdx : Int := fromIdx + q.limit - 1
  let rows := (sorted.drop fromIdx.toNat).take (toIdx - fromIdx + 1).toNat
  (rows, if countOpt then some (filtered.length : Int) else none)

/-- getAlerts as written in the route: the select is issued without a
count option, and the response reports total = count or 0 and
pages = ceil of (count or 0) over limit. -/
def getAlerts (db : List AlertRow) (role actorId : String) (q : ListQuery) : AlertsPage :=
  let res := runAlertSelect db role actorId q false
  let count : Option Int := res.2
  { alerts := res.1
    pageInfo :=
      { page := q.page, limit := q.limit
        total := count.getD 0
        pages := jsCeilDiv (count.getD 0) q.limit } }

theorem mem_insertDesc {a b : AlertRow} {l : List AlertRow} :
    a ∈ insertDesc b l → a = b ∨ a ∈ l := by
  induction l with
  | nil =>
    intro h
    simp [insertDesc] at h
    exact Or.inl h
  | cons c rest ih =>
    intro h
    by_cases hc : b.created_at ≤ c.created_at
    · simp [insertDesc, hc] at h
      rcases h with h | h
      · exact Or.inr (by simp [h])
      · rcases ih h with h' | h'
        · exact Or.inl h'
        · exact Or.inr (by simp [h'])
    · simp [insertDesc, hc] at h
      rcases h with h | h | h
      · exact Or.inl h
      · exact Or.inr (by simp [h])
      · exact Or.inr (by simp [h])

theorem mem_sortDesc {a : AlertRow} {l : List AlertRow} :
    a ∈ sortDesc l → a ∈ l := by
  induction l with
  | nil => intro h; exact h
  | cons b rest ih =>
    intro h
    rcases mem_insertDesc h with h' | h'
    · simp [h']
    · simp [ih h']

theorem mem_applyEqFilter {a : AlertRow} {f : AlertRow → String} {v : Option String}
    {l : List AlertRow} : a ∈ applyEqFilter f v l → a ∈ l := by
  unfold applyEqFilter
  by_cases h : truthyS v = true
  · rw [if_pos h]
    exact fun hm => List.mem_of_mem_filter hm
  · rw [if_neg h]
    exact id

/-- Claim C2: a tourist actor calling the listing operation only ever
receives alerts whose subject is their own id, for any combination of
status, type and severity filters and any page and limit. -/
theorem getAlerts_tourist_scoped (db : List AlertRow) (actorId : String)
    (q : ListQuery) (role : String) (hrole : role = "tourist") :
    ∀ a ∈ (getAlerts db role actorId q).alerts, a.tourist_id = actorId := by
  intro a ha
  have h1 : a ∈ sortDesc (filteredAlerts db role actorId q) := by
    have := List.take_subset _ _ ha
    exact List.drop_subset _ _ this
  have h2 : a ∈ filteredAlerts db role actorId q := mem_sortDesc h1
  have h3 : a ∈ (if role = "tourist" then db.filter (fun r => r.tourist_id == actorId) else db) := by
    unfold filteredAlerts at h2
    exact mem_applyEqFilter (mem_applyEqFilter (mem_applyEqFilter h2))
  rw [if_pos hrole] at h3
  have h4 := List.mem_filter.mp h3
  exact eq_of_beq h4.2

/-- A sample store with alerts of two different tourists. -/
def dbSample : List AlertRow :=
  [ { id := "a1", tourist_id := "t1", status := "active", type := "panic"
      severity := "critical", created_at := 10 }
  , { id := "a2", tourist_id := "t2", status := "active", type := "panic"
      severity := "critical", created_at := 20 } ]

/-- Default listing query: no filters, page 1, limit 20. -/
def qDefault : ListQuery :=
  { status := none, type := none, severity := none, page := 1, limit := 20 }

/-- Witness for claim C2: on the sample store, a tourist with id t1
receives only rows whose tourist_id is t1 — in particular the row the
call actually returns has tourist_id t1. -/
theorem getAlerts_tourist_scoped_witness :
    ({ id := "a1", tourist_id := "t1", status := "active", type := "panic"
       severity := "critical", created_at := 10 } : AlertRow).tourist_id = "t1" :=
  getAlerts_tourist_scoped dbSample "t1" qDefault "tourist" rfl
    { id := "a1", tourist_id := "t1", status := "active", type := "panic"
      severity := "critical", created_at := 10 } (by decide)

/-- A one-row store used to exhibit the reported-total bug. -/
def dbOne : List AlertRow :=
  [ { id := "a1", tourist_id := "t1", status := "active", type := "panic"
      severity := "critical", created_at := 100 } ]

/-- Claim C8, failing part: the listing handler never requests a count
from the store (the select call has no count option), so for a store
holding one matching alert it returns that alert in the page yet
reports total = 0 and pages = 0, while the filtered unpaginated match
count is 1 — the reported total is not the match count and the page
count is not ceil(total over limit) of the true total. -/
theorem getAlerts_count_bug :
    (getAlerts dbOne "admin" "p9" qDefault).alerts = dbOne
    ∧ (getAlerts dbOne "admin" "p9" qDefault).pageInfo.total = 0
    ∧ (getAlerts dbOne "admin" "p9" qDefault).pageInfo.pages = 0
    ∧ ((filteredAlerts dbOne "admin" "p9" qDefault).length : Int) = 1
    ∧ (getAlerts dbOne "admin" "p9" qDefault).pageInfo.total ≠
        ((filteredAlerts dbOne "admin" "p9" qDefault).length : Int) := by
  refine ⟨by decide, by decide, by decide, by decide, by decide⟩

/-- One entry of the append-only responses log of an alert. -/
structure ResponseEntry where
  responder_id : String
  action : String
  timestamp : Nat
  notes : String
deriving Repr, DecidableEq

/-- A full alert record as read and written by the status-transition
handler.  assigned_to and responses are nullable columns. -/
structure Alert where
  id : String
  tourist_id : String
  status : String
  assigned_to : Option String
  responses : Option (List ResponseEntry)
  resolved_at : Option Nat
  updated_at : Nat
deriving Repr, DecidableEq

/-- The four enumerated alert statuses accepted by the handler. -/
def validStatuses : List String := ["active", "acknowledged", "resolved", "false_alarm"]

/-- The roles whose first transition on an unassigned alert claims it. -/
def responderRoles : List String := ["police", "admin", "tourism_dept"]

/-- The response entry appended by one status transition. -/
def mkResponse (actorId st : String) (now : Nat) (notes : Option String) : ResponseEntry :=
  { responder_id := actorId
    action := "Status changed to " ++ st
    timestamp := now
    notes := notes.getD "" }

/-- The update applied to the fetched alert row: new status, updated_at
stamp, resolved_at stamp only on a transition to resolved, the
first-responder claim of assigned_to, and the appended response. -/
def applyStatusUpdate (a : Alert) (st actorId role : String)
    (notes : Option String) (now : Nat) : Alert :=
  { a with
    status := st
    updated_at := now
    resolved_at := if st = "resolved" then some now else a.resolved_at
    assigned_to :=
      if a.assigned_to = none ∧ role ∈ responderRoles then some actorId else a.assigned_to
    responses := some (a.responses.getD [] ++ [mkResponse actorId st now notes]) }

/-- The HTTP outcome of the status-transition handler. -/
inductive StatusUpdateOutcome where
  | badRequest (m : String)
  | notFound
  | forbidden
  | storeError (m : String)
  | ok (a : Alert)
deriving Repr, DecidableEq

/-- The status-transition handler of the alerts router: require a
truthy status, require it to be one of the four enumerated values,
fetch the alert (404 when absent), forbid a tourist touching an alert
of another tourist, then write the update.  Returns the outcome and
the resulting alerts table. -/
def updateAlertStatus (db : List Alert) (alertId actorId role : String)
    (status notes : Option String) (updErr : Option String) (now : Nat) :
    StatusUpdateOutcome × List Alert :=
  if truthyS status = false then (.badRequest "Status is required", db)
  else
    let st := status.getD ""
    if st ∉ validStatuses then
      (.badRequest "Status must be one of: active, acknowledged, resolved, false_alarm", db)
    else
      match db.find? (fun a => a.id == alertId) with
      | none => (.notFound, db)
      | some a =>
        if role = "tourist" ∧ a.tourist_id ≠ actorId then (.forbidden, db)
        else
          match updErr with
          | some m => (.storeError m, db)
          | none =>
            (.ok (applyStatusUpdate a st actorId role notes now),
             db.map (fun b => if b.id == alertId
               then applyStatusUpdate b st actorId role notes now else b))

theorem updateAlertStatus_ok_shape (db : List Alert) (alertId actorId role : String)
    (st : String) (notes : Option String) (updErr : Option String) (now : Nat)
    (a a' : Alert) (hfind : db.find? (fun b => b.id == alertId) = some a)
    (hok : (updateAlertStatus db alertId actorId role (some st) notes updErr now).1 = .ok a') :
    a' = applyStatusUpdate a st actorId role notes now := by
  unfold updateAlertStatus at hok
  by_cases hts : truthyS (some st) = false
  · rw [if_pos hts] at hok
    exact absurd hok (by simp)
  · rw [if_neg hts] at hok
    simp only [Option.getD_some] at hok
    by_cases hvs : st ∉ validStatuses
    · rw [if_pos hvs] at hok
      exact absurd hok (by simp)
    · rw [if_neg hvs] at hok
      rw [hfind] at hok
      dsimp only [] at hok
      by_cases hfb : role = "tourist" ∧ a.tourist_id ≠ actorId
      · rw [if_pos hfb] at hok
        exact absurd hok (by simp)
      · rw [if_neg hfb] at hok
        cases updErr with
        | some m => exact absurd hok (by simp)
        | none =>
          simp only [StatusUpdateOutcome.ok.injEq] at hok
          exact hok.symm

/-- Claim C4: every successful status transition appends exactly one
response entry, built from the acting responder, the action text
naming the new status, the timestamp and the notes, and all previously
existing response entries are preserved unchanged and in order. -/
theorem updateAlertStatus_appends_response (db : List Alert)
    (alertId actorId role st : String) (notes : Option String)
    (updErr : Option String) (now : Nat) (a a' : Alert)
    (hfind : db.find? (fun b => b.id == alertId) = some a)
    (hok : (updateAlertStatus db alertId actorId role (some st) notes updErr now).1 = .ok a') :
    a'.responses = some (a.responses.getD [] ++ [mkResponse actorId st now notes]) := by
  rw [updateAlertStatus_ok_shape db alertId actorId role st notes updErr now a a' hfind hok]
  rfl

/-- A stored alert with one existing response, used by the witnesses. -/
def alertSampleA : Alert :=
  { id := "a1", tourist_id := "t1", status := "active", assigned_to := none
    responses := some [{ responder_id := "t1", action := "created", timestamp := 1, notes := "" }]
    resolved_at := none, updated_at := 1 }

/-- A one-alert table used by the witnesses. -/
def dbAlerts : List Alert := [alertSampleA]

/-- Witness for claim C4: a concrete police transition on the sample
alert yields a responses log equal to the prior single entry followed
by exactly the new entry. -/
theorem updateAlertStatus_appends_response_witness :
    (applyStatusUpdate alertSampleA "acknowledged" "p1" "police" none 5).responses =
      some (alertSampleA.responses.getD [] ++ [mkResponse "p1" "acknowledged" 5 none]) :=
  updateAlertStatus_appends_response dbAlerts "a1" "p1" "police" "acknowledged"
    none none 5 alertSampleA
    (applyStatusUpdate alertSampleA "acknowledged" "p1" "police" none 5)
    (by decide) (by decide)

/-- Claim C5: assigned_to is set at most once — a successful transition
by a police, admin or tourism_dept actor on an alert with unset
assigned_to sets it to that actor, a transition on an alert whose
assigned_to is already set never changes it regardless of role, and a
transition by a tourist actor never sets it. -/
theorem assignedTo_set_at_most_once (db : List Alert)
    (alertId actorId role st : String) (notes : Option String)
    (updErr : Option String) (now : Nat) (a a' : Alert)
    (hfind : db.find? (fun b => b.id == alertId) = some a)
    (hok : (updateAlertStatus db alertId actorId role (some st) notes updErr now).1 = .ok a') :
    (a.assigned_to = none → role ∈ responderRoles → a'.assigned_to = some actorId)
    ∧ (∀ x, a.assigned_to = some x → a'.assigned_to = some x)
    ∧ (role = "tourist" → a'.assigned_to = a.assigned_to) := by
  rw [updateAlertStatus_ok_shape db alertId actorId role st notes updErr now a a' hfind hok]
  refine ⟨?_, ?_, ?_⟩
  · intro hnone hrole
    simp [applyStatusUpdate, hnone, hrole]
  · intro x hx
    simp [applyStatusUpdate, hx]
  · intro hrole
    have : role ∉ responderRoles := by
      rw [hrole]
      decide
    simp [applyStatusUpdate, this]

/-- Witness for claim C5: on the concrete unassigned sample alert, a
police transition claims it; had it already been assigned to p0, any
later transition would keep p0; and a tourist transition leaves the
assignment unchanged. -/
theorem assignedTo_set_at_most_once_witness :
    (applyStatusUpdate alertSampleA "acknowledged" "p1" "police" none 5).assigned_to = some "p1"
    ∧ (applyStatusUpdate { alertSampleA with assigned_to := some "p0" }
        "resolved" "p2" "admin" none 6).assigned_to = some "p0"
    ∧ (applyStatusUpdate alertSampleA "resolved" "t1" "tourist" none 7).assigned_to =
        alertSampleA.assigned_to := by
  refine ⟨?_, ?_, ?_⟩
  · exact (assignedTo_set_at_most_once dbAlerts "a1" "p1" "police" "acknowledged" none none 5
      alertSampleA _ (by decide) (by decide)).1 (by decide) (by decide)
  · exact (assignedTo_set_at_most_once [{ alertSampleA with assigned_to := some "p0" }]
      "a1" "p2" "admin" "resolved" none none 6 { alertSampleA with assigned_to := some "p0" }
      _ (by decide) (by decide)).2.1 "p0" (by decide)
  · exact (assignedTo_set_at_most_once dbAlerts "a1" "t1" "tourist" "resolved" none none 7
      alertSampleA _ (by decide) (by decide)).2.2 (by decide)

/-- Claim C6: a transition request whose status is not one of the four
enumerated values fails with a validation error and leaves the alerts
table unchanged; the only other checks are existence and the tourist
ownership rule, so a transition from the terminal status resolved (or
false_alarm) to any enumerated status is permitted. -/
theorem updateAlertStatus_validation (db : List Alert)
    (alertId actorId role st : String) (notes : Option String) (now : Nat) :
    (∀ updErr, st ∉ validStatuses →
      (updateAlertStatus db alertId actorId role (some st) notes updErr now).2 = db
      ∧ ∃ m, (updateAlertStatus db alertId actorId role (some st) notes updErr now).1 =
          .badRequest m)
    ∧ (∀ a, db.find? (fun b => b.id == alertId) = some a →
        a.status = "resolved" ∨ a.status = "false_alarm" → st ∈ validStatuses →
        ¬(role = "tourist" ∧ a.tourist_id ≠ actorId) →
        (updateAlertStatus db alertId actorId role (some st) notes none now).1 =
          .ok (applyStatusUpdate a st actorId role notes now)) := by
  constructor
  · intro updErr hst
    unfold updateAlertStatus
    by_cases hts : truthyS (some st) = false
    · rw [if_pos hts]
      exact ⟨rfl, _, rfl⟩
    · rw [if_neg hts]
      simp only [Option.getD_some]
      rw [if_pos hst]
      exact ⟨rfl, _, rfl⟩
  · intro a hfind hterm hst hforb
    unfold updateAlertStatus
    have hts : truthyS (some st) = true := by
      simp only [validStatuses, List.mem_cons, List.not_mem_nil, or_false] at hst
      rcases hst with rfl | rfl | rfl | rfl <;> decide
    rw [if_neg (by simp [hts])]
    simp only [Option.getD_some]
    rw [if_neg (by simpa using hst), hfind]
    dsimp only []
    rw [if_neg hforb]

/-- The sample alert in a terminal status, used by the C6 witness. -/
def alertResolvedSample : Alert := { alertSampleA with status := "resolved" }

/-- Witness for claim C6: a request with the out-of-enumeration status
bogus leaves the concrete table unchanged, and a transition of a
resolved alert back to active by a police actor succeeds. -/
theorem updateAlertStatus_validation_witness :
    (updateAlertStatus dbAlerts "a1" "p1" "police" (some "bogus") none none 5).2 = dbAlerts
    ∧ (updateAlertStatus [alertResolvedSample] "a1" "p1" "police" (some "active")
        none none 6).1 = .ok (applyStatusUpdate alertResolvedSample "active" "p1" "police" none 6) :=
  ⟨((updateAlertStatus_validation dbAlerts "a1" "p1" "police" "bogus" none 5).1
      none (by decide)).1,
   (updateAlertStatus_validation [alertResolvedSample] "a1" "p1" "police" "active" none 6).2
     alertResolvedSample (by decide) (Or.inl (by decide)) (by decide) (by decide)⟩

/-- JavaScript truthiness of an optional rational: absent and zero are
falsy. -/
def truthyQ (v : Option ℚ) : Bool :=
  match v with
  | none => false
  | some x => x ≠ 0

/-- The request body of createGeofence.  The radius is any numeric JSON
value, modelled as a rational; the source also accepts string radii
(likewise handed to parseInt), which this embedding leaves out — the
numeric values already exhibit the full truncation behavior. -/
structure GeofenceReq where
  name : Option String
  latitude : Option ℚ
  longitude : Option ℚ
  radius : Option ℚ
  type : Option String
deriving Repr, DecidableEq

/-- JavaScript parseInt applied to a numeric value: the number is
rendered in decimal notation and its leading integer part is parsed,
which truncates toward zero (0.5 becomes 0, -2.7 becomes -2).  Numbers
whose string form is exponential notation fall outside this model. -/
def jsParseInt (q : ℚ) : Int :=
  q.num.tdiv q.den

/-- The three enumerated geofence classes. -/
def geofenceClasses : List String := ["safe", "warning", "danger"]

/-- The HTTP outcome of createGeofence. -/
inductive CreateGfOutcome where
  | badRequest (m : String)
  | storeError (m : String)
  | created (g : Geofence)
deriving Repr, DecidableEq

/-- The outcome of one createGeofence call plus the geofence set of the
profile after the call. -/
structure CreateGfResult where
  outcome : CreateGfOutcome
  stored : List Geofence
deriving Repr, DecidableEq

/-- The geofence set read from the fetched profile: a missing profile
or a null geofences column reads as the empty set. -/
def priorGeofences (fetchRes : FetchResult) : List Geofence :=
  match fetchRes with
  | .ok p => p.geofences.getD []
  | _ => []

/-- createGeofence: require all five fields truthy, require the type to
be one of the three classes, then append the new geofence (with
is_active true and a time-based id) to the profile geofence set and
upsert. -/
def createGeofence (req : GeofenceReq) (fetchRes : FetchResult)
    (upsertErr : Option String) (now : Nat) : CreateGfResult :=
  if (truthyS req.name && truthyQ req.latitude && truthyQ req.longitude
      && truthyQ req.radius && truthyS req.type) = false then
    ⟨.badRequest "Name, coordinates, radius, and type are required", priorGeofences fetchRes⟩
  else if req.type.getD "" ∉ geofenceClasses then
    ⟨.badRequest "Type must be safe, warning, or danger", priorGeofences fetchRes⟩
  else
    match fetchRes with
    | .err m => ⟨.storeError m, priorGeofences (.err m)⟩
    | fr =>
      let g : Geofence :=
        { id := "geofence_" ++ toString now
          name := req.name.getD ""
          coordinates := { latitude := req.latitude.getD 0, longitude := req.longitude.getD 0 }
          radius := jsParseInt (req.radius.getD 0)
          type := req.type.getD ""
          is_active := true
          created_at := now }
      match upsertErr with
      | some m => ⟨.storeError m, priorGeofences fr⟩
      | none => ⟨.created g, priorGeofences fr ++ [g]⟩

/-- A creation request with a negative radius: every field is truthy,
so validation passes and the geofence is stored with radius -100. -/
def gfReqNeg : GeofenceReq :=
  { name := some "zone", latitude := some 10, longitude := some 20
    radius := some (-100), type := some "danger" }

/-- Counterexample for claim C9: the claim that every stored geofence
has a positive radius is false — the concrete request gfReqNeg passes
validation (a negative number is truthy) and stores a geofence whose
radius is -100. -/
theorem createGeofence_positive_radius_false :
    ¬ (∀ g ∈ (createGeofence gfReqNeg .notFound none 7).stored, 0 < g.radius) := by
  decide

/-- Claim C9 as amended: every geofence stored by createGeofence has a
type among the three enumerated classes, and its radius is parseInt of
the supplied radius — the truthiness check only rules out a missing or
zero request value, so the stored radius need not be positive (gfReqNeg
stores -100, and a fractional radius of one half truncates to a stored
radius of 0); creation fails with a validation error, leaving the
stored set unchanged, when name, coordinates, radius, or type is
missing (or zero or empty) or the type is outside the enumeration. -/
theorem createGeofence_validation_spec (req : GeofenceReq) (fetchRes : FetchResult)
    (upsertErr : Option String) (now : Nat) :
    (∀ g, (createGeofence req fetchRes upsertErr now).outcome = .created g →
      g.type ∈ geofenceClasses ∧ g.radius = jsParseInt (req.radius.getD 0)
      ∧ (createGeofence req fetchRes upsertErr now).stored = priorGeofences fetchRes ++ [g])
    ∧ ((truthyS req.name && truthyQ req.latitude && truthyQ req.longitude
        && truthyQ req.radius && truthyS req.type) = false →
      (createGeofence req fetchRes upsertErr now).outcome =
        .badRequest "Name, coordinates, radius, and type are required"
      ∧ (createGeofence req fetchRes upsertErr now).stored = priorGeofences fetchRes)
    ∧ ((truthyS req.name && truthyQ req.latitude && truthyQ req.longitude
        && truthyQ req.radius && truthyS req.type) = true →
      req.type.getD "" ∉ geofenceClasses →
      (createGeofence req fetchRes upsertErr now).outcome =
        .badRequest "Type must be safe, warning, or danger"
      ∧ (createGeofence req fetchRes upsertErr now).stored = priorGeofences fetchRes) := by
  refine ⟨?_, ?_, ?_⟩
  · intro g hg
    unfold createGeofence at hg ⊢
    by_cases h1 : (truthyS req.name && truthyQ req.latitude && truthyQ req.longitude
        && truthyQ req.radius && truthyS req.type) = false
    · rw [if_pos h1] at hg
      injection hg
    · rw [if_neg h1] at hg ⊢
      by_cases h2 : req.type.getD "" ∉ geofenceClasses
      · rw [if_pos h2] at hg
        injection hg
      · rw [if_neg h2] at hg ⊢
        have htype : req.type.getD "" ∈ geofenceClasses := not_not.mp h2
        cases fetchRes with
        | err m => injection hg
        | ok p =>
          cases upsertErr with
          | some m => injection hg
          | none =>
            injection hg with hlit
            subst hlit
            exact ⟨htype, rfl, rfl⟩
        | notFound =>
          cases upsertErr with
          | some m => injection hg
          | none =>
            injection hg with hlit
            subst hlit
            exact ⟨htype, rfl, rfl⟩
  · intro h1
    unfold createGeofence
    rw [if_pos h1]
    exact ⟨rfl, rfl⟩
  · intro h1 h2
    unfold createGeofence
    rw [if_neg (by simp [h1]), if_pos h2]
    exact ⟨rfl, rfl⟩

/-- A fully valid creation request. -/
def gfReqGood : GeofenceReq :=
  { name := some "park", latitude := some 5, longitude := some 6
    radius := some 300, type := some "safe" }

/-- The geofence gfReqGood stores at time 3. -/
def gfStoredGood : Geofence :=
  { id := "geofence_3", name := "park", coordinates := { latitude := 5, longitude := 6 }
    radius := 300, type := "safe", is_active := true, created_at := 3 }

/-- A creation request whose radius is the fraction one half: truthy,
so validation passes, and parseInt truncates it to a stored radius of
zero. -/
def gfReqHalf : GeofenceReq :=
  { name := some "park", latitude := some 5, longitude := some 6
    radius := some (mkRat 1 2), type := some "safe" }

/-- The geofence gfReqHalf stores at time 4: its radius is 0. -/
def gfStoredHalf : Geofence :=
  { id := "geofence_4", name := "park", coordinates := { latitude := 5, longitude := 6 }
    radius := 0, type := "safe", is_active := true, created_at := 4 }

/-- A creation request with no radius field. -/
def gfReqMissing : GeofenceReq :=
  { name := some "park", latitude := some 5, longitude := some 6
    radius := none, type := some "safe" }

/-- A creation request whose type is outside the enumeration. -/
def gfReqBadType : GeofenceReq :=
  { name := some "park", latitude := some 5, longitude := some 6
    radius := some 300, type := some "harmless" }

/-- Witness for the amended claim C9: a concrete valid request stores a
geofence with enumerated type and the parseInt of its radius appended
to the empty prior set; a truthy fractional radius of one half is
stored truncated to 0; a request missing its radius and a request with
an out-of-enumeration type are both rejected with the stored set
untouched. -/
theorem createGeofence_validation_witness :
    (gfStoredGood.type ∈ geofenceClasses
      ∧ gfStoredGood.radius = jsParseInt (gfReqGood.radius.getD 0)
      ∧ (createGeofence gfReqGood .notFound none 3).stored =
          priorGeofences .notFound ++ [gfStoredGood])
    ∧ ((createGeofence gfReqHalf .notFound none 4).stored =
          priorGeofences .notFound ++ [gfStoredHalf]
      ∧ gfStoredHalf.radius = 0)
    ∧ ((createGeofence gfReqMissing .notFound none 3).outcome =
        .badRequest "Name, coordinates, radius, and type are required"
      ∧ (createGeofence gfReqMissing .notFound none 3).stored = priorGeofences .notFound)
    ∧ ((createGeofence gfReqBadType .notFound none 3).outcome =
        .badRequest "Type must be safe, warning, or danger"
      ∧ (createGeofence gfReqBadType .notFound none 3).stored = priorGeofences .notFound) :=
  ⟨(createGeofence_validation_spec gfReqGood .notFound none 3).1 gfStoredGood (by decide),
   ⟨((createGeofence_validation_spec gfReqHalf .notFound none 4).1 gfStoredHalf
       (by decide)).2.2, by decide⟩,
   (createGeofence_validation_spec gfReqMissing .notFound none 3).2.1 (by decide),
   (createGeofence_validation_spec gfReqBadType .notFound none 3).2.2 (by decide) (by decide)⟩

/-- The location object of an alert-creation or panic request. -/
structure AlertLocReq where
  latitude : Option ℚ
  longitude : Option ℚ
deriving Repr, DecidableEq

/-- JavaScript truthiness of the full location check of the alert
routes: the location object must be present and its latitude and
longitude must both be truthy numbers. -/
def truthyLoc (l : Option AlertLocReq) : Bool :=
  match l with
  | none => false
  | some loc => truthyQ loc.latitude && truthyQ loc.longitude

/-- The request body of the alert-creation route. -/
structure AlertCreateReq where
  type : Option String
  severity : Option String
  location : Option AlertLocReq
  message : Option String
deriving Repr, DecidableEq

/-- The six enumerated alert types accepted by the creation route. -/
def validAlertTypes : List String :=
  ["panic", "geofence_violation", "low_safety_score", "missing",
   "health_emergency", "suspicious_activity"]

/-- The alert row inserted by the creation and panic routes. -/
structure NewAlert where
  tourist_id : String
  type : String
  severity : String
  latitude : ℚ
  longitude : ℚ
  message : Option String
  status : String
deriving Repr, DecidableEq

/-- The HTTP outcome of the creation and panic routes. -/
inductive CreateAlertOutcome where
  | badRequest (m : String)
  | created (a : NewAlert)
deriving Repr, DecidableEq

/-- The alert-creation route: require a truthy type and a location with
truthy latitude and longitude, require the type to be enumerated, then
insert with severity defaulting to medium and status active. -/
def createAlertRoute (actorId : String) (req : AlertCreateReq) : CreateAlertOutcome :=
  if (truthyS req.type && truthyLoc req.location) = false then
    .badRequest "Type and location (latitude, longitude) are required"
  else if req.type.getD "" ∉ validAlertTypes then
    .badRequest ("Type must be one of: panic, geofence_violation, low_safety_score, "
      ++ "missing, health_emergency, suspicious_activity")
  else
    .created
      { tourist_id := actorId
        type := req.type.getD ""
        severity := if truthyS req.severity then req.severity.getD "" else "medium"
        latitude := (match req.location with | some loc => loc.latitude.getD 0 | none => 0)
        longitude := (match req.location with | some loc => loc.longitude.getD 0 | none => 0)
        message := req.message
        status := "active" }

/-- The panic route: require a location with truthy latitude and
longitude, then insert a critical panic alert with the default message
when none is supplied. -/
def createPanicAlert (actorId : String) (location : Option AlertLocReq)
    (message : Option String) : CreateAlertOutcome :=
  if truthyLoc location = false then
    .badRequest "Location with latitude and longitude required for panic alert"
  else
    .created
      { tourist_id := actorId
        type := "panic"
        severity := "critical"
        latitude := (match location with | some loc => loc.latitude.getD 0 | none => 0)
        longitude := (match location with | some loc => loc.longitude.getD 0 | none => 0)
        message := some (if truthyS message then message.getD ""
          else "PANIC BUTTON PRESSED - Immediate assistance required!")
        status := "active" }

/-- Claim C10: because required-field presence is tested by JavaScript
truthiness, an alert-creation or panic request whose latitude or
longitude equals 0, and a geofence-creation request whose latitude,
longitude or radius equals 0, is rejected with the same
missing-required-field validation error as if the field were absent,
even though 0 is an in-range value. -/
theorem zero_coordinate_rejected :
    (∀ (actorId : String) (req : AlertCreateReq) (loc : AlertLocReq),
      req.location = some loc →
      loc.latitude = some 0 ∨ loc.longitude = some 0 →
      createAlertRoute actorId req =
        .badRequest "Type and location (latitude, longitude) are required")
    ∧ (∀ (actorId : String) (loc : AlertLocReq) (msg : Option String),
      loc.latitude = some 0 ∨ loc.longitude = some 0 →
      createPanicAlert actorId (some loc) msg =
        .badRequest "Location with latitude and longitude required for panic alert")
    ∧ (∀ (req : GeofenceReq) (fetchRes : FetchResult) (upsertErr : Option String) (now : Nat),
      req.latitude = some 0 ∨ req.longitude = some 0 ∨ req.radius = some (0 : ℚ) →
      (createGeofence req fetchRes upsertErr now).outcome =
        .badRequest "Name, coordinates, radius, and type are required"
      ∧ (createGeofence req fetchRes upsertErr now).stored = priorGeofences fetchRes) := by
  refine ⟨?_, ?_, ?_⟩
  · intro actorId req loc hloc h
    have hfalse : truthyLoc req.location = false := by
      rw [hloc]
      rcases h with h | h <;> simp [truthyLoc, h, truthyQ]
    unfold createAlertRoute
    rw [if_pos (by simp [hfalse])]
  · intro actorId loc msg h
    have hfalse : truthyLoc (some loc) = false := by
      rcases h with h | h <;> simp [truthyLoc, h, truthyQ]
    unfold createPanicAlert
    rw [if_pos hfalse]
  · intro req fetchRes upsertErr now h
    have hfalse : (truthyS req.name && truthyQ req.latitude && truthyQ req.longitude
        && truthyQ req.radius && truthyS req.type) = false := by
      rcases h with h | h | h <;> simp [h, truthyQ]
    exact (createGeofence_validation_spec req fetchRes upsertErr now).2.1 hfalse

/-- Witness for claim C10: concrete requests on the equator, on the
prime meridian, and with radius 0 are each rejected with the
missing-required-field message. -/
theorem zero_coordinate_rejected_witness :
    createAlertRoute "t1"
      { type := some "panic", severity := none
        location := some { latitude := some 0, longitude := some 77 }, message := none } =
      .badRequest "Type and location (latitude, longitude) are required"
    ∧ createPanicAlert "t1" (some { latitude := some 12, longitude := some 0 }) none =
      .badRequest "Location with latitude and longitude required for panic alert"
    ∧ (createGeofence
        { name := some "zone", latitude := some 1, longitude := some 2
          radius := some 0, type := some "danger" } .notFound none 3).outcome =
      .badRequest "Name, coordinates, radius, and type are required" :=
  ⟨zero_coordinate_rejected.1 "t1"
    { type := some "panic", severity := none
      location := some { latitude := some 0, longitude := some 77 }, message := none }
    { latitude := some 0, longitude := some 77 } rfl (Or.inl rfl),
   zero_coordinate_rejected.2.1 "t1" { latitude := some 12, longitude := some 0 } none
    (Or.inr rfl),
   (zero_coordinate_rejected.2.2
     { name := some "zone", latitude := some 1, longitude := some 2
       radius := some 0, type := some "danger" } .notFound none 3
     (Or.inr (Or.inr rfl))).1⟩
